import Mathlib

/-!
  # Sub-resource reconciliation protocol of the NFS feature reconcilers

  A shallow embedding of the per-kind resource reconcilers of the
  storagecluster controller: the NFS `Service` reconciler
  (`ocsNFSService`, from `controllers/storagecluster/nfsservice.go`), the
  `CephNFS` reconcilers (`ocsCephNetworkFilesystem` and `ocsCephNFS`), the
  backing pool reconciler (`ocsCephNFSBlockPool`) and the second variant
  of the Service reconciler (`ocsCephNFSService`).

  The resource-management substrate (the controller-runtime client) is
  modelled as a `World`: the stored object at the managed resource's
  derived key, a schedule of injected transient faults (one Boolean per
  substrate call, in call order), a flag saying whether a delete completes
  synchronously or merely marks the object for deletion, and a trace of
  the substrate calls issued. Each reconciler entry point is a pure state
  transformer `World k -> outcome × World k`, translated clause by clause
  from the Go source; in particular the Go `switch` in `ensureCreated`
  that has no `default` case is embedded as-is (a fetch error other than
  not-found falls through to the final `return reconcile.Result{}, nil`),
  and the delete guard in `ensureDeleted` tests the freshly built desired
  object exactly as the source does.

  Helpers that live outside the five source files (naming helpers,
  placement and sizing providers, controller-reference setting) are
  modelled from the spec and pinned by the expected names in the unit
  tests that are part of the source.
-/

/-- An owner reference: the back-link recorded on a managed resource
identifying its owning parent. -/
structure OwnerReference where
  kind : String
  name : String
  uid : String
  controller : Bool
  deriving DecidableEq

/-- Object metadata: identity, owner references, the deletion mark, and
substrate-managed bookkeeping (`resourceVersion`, labels) that the update
path must not touch. `deletionTimestamp = none` models a nil timestamp;
`some t` models an object marked for deletion. -/
structure ObjectMeta where
  name : String
  nspace : String
  uid : String := ""
  ownerReferences : List OwnerReference := []
  deletionTimestamp : Option Nat := none
  resourceVersion : Nat := 0
  labels : List (String × String) := []
  deriving DecidableEq

/-- Resource requirements for a daemon (sizing knobs). -/
structure ResourceRequirements where
  cpu : Nat
  memory : Nat
  deriving DecidableEq

/-- Placement of a daemon, as produced by the placement provider. -/
structure PlacementSpec where
  kindTag : String
  prefs : List (String × String)
  deriving DecidableEq

/-- The NFS feature block of the parent spec: a single enable flag. -/
structure NFSSpec where
  enable : Bool
  deriving DecidableEq

/-- The network block of the parent spec. -/
structure NetworkSpec where
  hostNetwork : Bool
  deriving DecidableEq

/-- The parent (StorageCluster) spec fields consumed by these
reconcilers. -/
structure StorageClusterSpec where
  nfs : Option NFSSpec := none
  network : Option NetworkSpec := none
  resources : List (String × ResourceRequirements) := []
  placement : List (String × String) := []
  failureDomain : String := ""
  replica : Nat := 3
  deriving DecidableEq

/-- The parent resource. -/
structure StorageCluster where
  meta : ObjectMeta
  spec : StorageClusterSpec
  deriving DecidableEq

/-- One port of a Service. -/
structure ServicePort where
  name : String
  port : Int
  protocol : String := ""
  targetPort : Int := 0
  deriving DecidableEq

/-- The Service spec. `clusterIP` and `svcType` stand for the fields the
substrate manages or that the update path must leave alone. -/
structure ServiceSpec where
  ports : List ServicePort := []
  selector : List (String × String) := []
  sessionAffinity : String := ""
  clusterIP : String := ""
  svcType : String := ""
  deriving DecidableEq

/-- A core Service object. -/
structure Service where
  meta : ObjectMeta
  spec : ServiceSpec
  deriving DecidableEq

/-- The Ganesha server block of a CephNFS spec. -/
structure GaneshaServerSpec where
  active : Int
  placement : PlacementSpec
  resources : ResourceRequirements
  priorityClassName : String
  deriving DecidableEq

/-- The CephNFS spec. -/
structure NFSGaneshaSpec where
  server : GaneshaServerSpec
  deriving DecidableEq

/-- A CephNFS object. -/
structure CephNFS where
  meta : ObjectMeta
  spec : NFSGaneshaSpec
  deriving DecidableEq

/-- Replication settings of a pool. -/
structure ReplicatedSpec where
  size : Nat
  deriving DecidableEq

/-- The pool settings of a CephBlockPool. -/
structure PoolSpec where
  failureDomain : String
  replicated : ReplicatedSpec
  enableRBDStats : Bool
  deriving DecidableEq

/-- The named-pool spec of a CephBlockPool. -/
structure NamedBlockPoolSpec where
  name : String
  poolSpec : PoolSpec
  deriving DecidableEq

/-- A CephBlockPool object. -/
structure CephBlockPool where
  meta : ObjectMeta
  spec : NamedBlockPoolSpec
  deriving DecidableEq

/-- The requeue hint returned by every entry point
(`reconcile.Result`): a retry flag and a delay. `reconcile.Result{}` is
`{ }` (both fields at their zero value). -/
structure ReconcileResult where
  requeue : Bool := false
  requeueAfter : Nat := 0
  deriving DecidableEq

/-- The errors an entry point can return. `substrateErr` is a raw
substrate I/O error returned unchanged; the `uninstall*` constructors are
the wrapped errors of the delete path; `pendingDeletion` is the designed
business-logic error of the restore path; `buildErr` is the builder's
single error condition (ownership linkage cannot be established). -/
inductive RError where
  | buildErr
  | substrateErr
  | pendingDeletion (name : String)
  | uninstallRetrieveFailed (name : String)
  | uninstallDeleteFailed (name : String)
  | uninstallWaitingForDeletion (name : String)
  deriving DecidableEq

/-- The reconciler receiver: the only state consulted by this code is
whether the scheme allows establishing the controller reference. -/
structure StorageClusterReconciler where
  schemeOk : Bool
  deriving DecidableEq

/-- Modelled from the spec: the naming service is a deterministic pure
function of parent identity and kind (spec section 6); the concrete form is
pinned by the unit test expecting the name `ocsinit-cephnfs-service` for a
parent named `ocsinit`. `generateNameForNFSService` is not under the given
sources. -/
def generateNameForNFSService (initData : StorageCluster) : String :=
  initData.meta.name ++ "-cephnfs-service"

/-- Modelled from the spec: deterministic name derived from the parent
identity, pinned by the unit test expecting `ocsinit-cephnetworkfilesystem`.
`generateNameForCephNetworkFilesystem` is not under the given sources. -/
def generateNameForCephNetworkFilesystem (initData : StorageCluster) : String :=
  initData.meta.name ++ "-cephnetworkfilesystem"

/-- Modelled from the spec: deterministic name derived from the parent
identity, pinned by the unit test expecting `ocsinit-cephnfs`.
`generateNameForCephNFS` is not under the given sources. -/
def generateNameForCephNFS (initData : StorageCluster) : String :=
  initData.meta.name ++ "-cephnfs"

/-- Modelled from the spec: deterministic name derived from the parent
identity and the kind. `generateNameForCephNFSBlockPool` is not under the
given sources. -/
def generateNameForCephNFSBlockPool (initData : StorageCluster) : String :=
  initData.meta.name ++ "-cephnfs-builtin-pool"

/-- Modelled from the spec: the placement provider
`placement(parent, kindTag) -> PlacementSpec` (spec section 6), a pure
function of the parent and the kind tag. `getPlacement` is not under the
given sources. -/
def getPlacement (sc : StorageCluster) (kindTag : String) : PlacementSpec :=
  { kindTag := kindTag, prefs := sc.spec.placement }

/-- Modelled from the spec: the defaults/sizing provider
`resourceRequirements(kindTag, overrides)` (spec section 6), falling back
to system defaults when the parent sets no override.
`defaults.GetDaemonResources` is not under the given sources. -/
def GetDaemonResources (kindTag : String)
    (overrides : List (String × ResourceRequirements)) : ResourceRequirements :=
  match overrides.lookup kindTag with
  | some r => r
  | none => { cpu := 1, memory := 2 }

/-- Modelled from the spec: the failure-domain knob read from the parent
configuration. `getFailureDomain` is not under the given sources. -/
def getFailureDomain (sc : StorageCluster) : String :=
  sc.spec.failureDomain

/-- Modelled from the spec: replication sizing computed from the parent
configuration. `generateCephReplicatedSpec` is not under the given
sources. -/
def generateCephReplicatedSpec (sc : StorageCluster) (tier : String) : ReplicatedSpec :=
  { size := sc.spec.replica + tier.length * 0 }

/-- The priority class assigned to the NFS pods; a constant defined
outside the given sources. -/
def openshiftUserCritical : String := "openshift-user-critical"

/-- Modelled from the spec: `controllerutil.SetControllerReference` links
the object back to the parent as its single controller owner, and fails
only when the ownership linkage cannot be established (spec section 4.1);
that single failure condition is the `schemeOk` flag of the reconciler. -/
def setControllerReference (r : StorageClusterReconciler)
    (owner : StorageCluster) : Except RError (List OwnerReference) :=
  if r.schemeOk then
    Except.ok [{ kind := "StorageCluster", name := owner.meta.name,
                 uid := owner.meta.uid, controller := true }]
  else
    Except.error RError.buildErr

/-- One substrate call, as recorded in the trace: a fetch or one of the
three mutating calls. -/
inductive Call (k : Type) where
  | get
  | create (o : k)
  | update (o : k)
  | delete (o : k)
  deriving DecidableEq

/-- Outcome of a substrate fetch: the object, not-found, or an error other
than not-found. -/
inductive GetRes (k : Type) where
  | ok (o : k)
  | notFound
  | err
  deriving DecidableEq

/-- The substrate as seen through the client at the managed resource's
derived key: the stored object (if any), the schedule of injected
transient faults (consumed one entry per call; an exhausted schedule means
no fault), whether a delete is asynchronous (marks the object instead of
removing it), and the trace of calls issued. -/
structure World (k : Type) where
  store : Option k
  faults : List Bool := []
  deleteAsync : Bool := false
  trace : List (Call k) := []
  deriving DecidableEq

/-- Objects the substrate can mark for deletion. -/
class KubeObj (k : Type) where
  markDeleted : k → k

instance : KubeObj Service where
  markDeleted o := { o with meta.deletionTimestamp := some 1 }

instance : KubeObj CephNFS where
  markDeleted o := { o with meta.deletionTimestamp := some 1 }

instance : KubeObj CephBlockPool where
  markDeleted o := { o with meta.deletionTimestamp := some 1 }

/-- Consume the next entry of the fault schedule. -/
def popFault {k : Type} (w : World k) : Bool × World k :=
  match w.faults with
  | [] => (false, w)
  | f :: rest => (f, { w with faults := rest })

/-- `r.Client.Get`: a fault yields an error other than not-found; else the
result reflects the store. -/
def clientGet {k : Type} (w : World k) : GetRes k × World k :=
  let (f, w1) := popFault w
  let w2 := { w1 with trace := w1.trace ++ [Call.get] }
  if f then (GetRes.err, w2)
  else
    match w2.store with
    | none => (GetRes.notFound, w2)
    | some o => (GetRes.ok o, w2)

/-- `r.Client.Create`: returns whether the call failed; on success the
object is stored. -/
def clientCreate {k : Type} (o : k) (w : World k) : Bool × World k :=
  let (f, w1) := popFault w
  let w2 := { w1 with trace := w1.trace ++ [Call.create o] }
  if f then (true, w2) else (false, { w2 with store := some o })

/-- `r.Client.Update`: returns whether the call failed; on success the
stored object is replaced. -/
def clientUpdate {k : Type} (o : k) (w : World k) : Bool × World k :=
  let (f, w1) := popFault w
  let w2 := { w1 with trace := w1.trace ++ [Call.update o] }
  if f then (true, w2) else (false, { w2 with store := some o })

/-- `r.Client.Delete`: returns whether the call failed; on success the
stored object is removed, or only marked for deletion when the substrate
completes deletes asynchronously. -/
def clientDelete {k : Type} [KubeObj k] (o : k) (w : World k) : Bool × World k :=
  let (f, w1) := popFault w
  let w2 := { w1 with trace := w1.trace ++ [Call.delete o] }
  if f then (true, w2)
  else if w2.deleteAsync then
    (false, { w2 with store := w2.store.map KubeObj.markDeleted })
  else
    (false, { w2 with store := none })

/-- The existence policy shared by all five reconcilers, exactly the Go
condition `instance.Spec.NFS == nil || !instance.Spec.NFS.Enable`. -/
def nfsNotEnabled (inst : StorageCluster) : Bool :=
  match inst.spec.nfs with
  | none => true
  | some n => !n.enable

/-- `newNFSService` of `nfsservice.go`: the Service that should exist for
the NFS feature, with port 2049/TCP, the rook-ceph-nfs selector keyed by
the CephNetworkFilesystem name, ClientIP session affinity, a headless
cluster IP under host networking, and the controller reference to the
parent. -/
def StorageClusterReconciler.newNFSService (r : StorageClusterReconciler)
    (initData : StorageCluster) : Except RError Service :=
  let nfsPort : Int := 2049
  let obj : Service :=
    { meta := { name := generateNameForNFSService initData,
                nspace := initData.meta.nspace },
      spec := { ports := [{ name := "nfs", port := nfsPort, protocol := "TCP",
                            targetPort := nfsPort }],
                selector := [("app", "rook-ceph-nfs"),
                             ("ceph_nfs", generateNameForCephNetworkFilesystem initData)],
                sessionAffinity := "ClientIP" } }
  let obj :=
    match initData.spec.network with
    | some n => if n.hostNetwork then { obj with spec.clusterIP := "None" } else obj
    | none => obj
  match setControllerReference r initData with
  | Except.ok refs => Except.ok { obj with meta.ownerReferences := refs }
  | Except.error e => Except.error e

/-- `newCephNetworkFilesystemInstance`: the CephNFS that should exist,
with one active Ganesha server, placement and resources from the parent
knobs, and the user-critical priority class. -/
def StorageClusterReconciler.newCephNetworkFilesystemInstance
    (r : StorageClusterReconciler) (initData : StorageCluster) : Except RError CephNFS :=
  let obj : CephNFS :=
    { meta := { name := generateNameForCephNetworkFilesystem initData,
                nspace := initData.meta.nspace },
      spec := { server := { active := 1,
                            placement := getPlacement initData "nfs",
                            resources := GetDaemonResources "nfs" initData.spec.resources,
                            priorityClassName := openshiftUserCritical } } }
  match setControllerReference r initData with
  | Except.ok refs => Except.ok { obj with meta.ownerReferences := refs }
  | Except.error e => Except.error e

/-- `newCephNFSInstance`: the CephNFS that should exist, in the variant
source file; identical to `newCephNetworkFilesystemInstance` up to the
derived name. -/
def StorageClusterReconciler.newCephNFSInstance (r : StorageClusterReconciler)
    (initData : StorageCluster) : Except RError CephNFS :=
  let obj : CephNFS :=
    { meta := { name := generateNameForCephNFS initData,
                nspace := initData.meta.nspace },
      spec := { server := { active := 1,
                            placement := getPlacement initData "nfs",
                            resources := GetDaemonResources "nfs" initData.spec.resources,
                            priorityClassName := openshiftUserCritical } } }
  match setControllerReference r initData with
  | Except.ok refs => Except.ok { obj with meta.ownerReferences := refs }
  | Except.error e => Except.error e

/-- `newCephNFSBlockPoolInstance`: the backing CephBlockPool required for
CephNFS. -/
def StorageClusterReconciler.newCephNFSBlockPoolInstance (r : StorageClusterReconciler)
    (initData : StorageCluster) : Except RError CephBlockPool :=
  let obj : CephBlockPool :=
    { meta := { name := generateNameForCephNFSBlockPool initData,
                nspace := initData.meta.nspace },
      spec := { name := ".nfs",
                poolSpec := { failureDomain := getFailureDomain initData,
                              replicated := generateCephReplicatedSpec initData "data",
                              enableRBDStats := true } } }
  match setControllerReference r initData with
  | Except.ok refs => Except.ok { obj with meta.ownerReferences := refs }
  | Except.error e => Except.error e

/-- `newNFSService` of the variant source file (receiver
`ocsCephNFSService`): port 2049 with protocol and target port left at
their zero values, selector keyed by the CephNFS name, and no host-network
adjustment. -/
def ocsCephNFSService.newNFSService (r : StorageClusterReconciler)
    (initData : StorageCluster) : Except RError Service :=
  let obj : Service :=
    { meta := { name := generateNameForNFSService initData,
                nspace := initData.meta.nspace },
      spec := { ports := [{ name := "nfs", port := 2049 }],
                selector := [("app", "rook-ceph-nfs"),
                             ("ceph_nfs", generateNameForCephNFS initData)],
                sessionAffinity := "ClientIP" } }
  match setControllerReference r initData with
  | Except.ok refs => Except.ok { obj with meta.ownerReferences := refs }
  | Except.error e => Except.error e

/-- `ocsNFSService.ensureDeleted`: build (for the derived name), fetch;
not-found is success; a fetch error is wrapped and returned; when found,
delete guarded by the deletion timestamp of the freshly built object
(exactly as the source reads), then re-fetch once: not-found is success,
anything else is the wrapped waiting-for-deletion error. -/
def ocsNFSService.ensureDeleted (r : StorageClusterReconciler) (sc : StorageCluster)
    (w : World Service) : (ReconcileResult × Option RError) × World Service :=
  match r.newNFSService sc with
  | Except.error e => (({}, some e), w)
  | Except.ok nfsService =>
    match clientGet w with
    | (GetRes.notFound, w1) => (({}, none), w1)
    | (GetRes.err, w1) =>
      (({}, some (RError.uninstallRetrieveFailed nfsService.meta.name)), w1)
    | (GetRes.ok foundNFSService, w1) =>
      if nfsService.meta.deletionTimestamp.isNone then
        match clientDelete foundNFSService w1 with
        | (true, w2) =>
          (({}, some (RError.uninstallDeleteFailed foundNFSService.meta.name)), w2)
        | (false, w2) =>
          match clientGet w2 with
          | (GetRes.notFound, w3) => (({}, none), w3)
          | (GetRes.ok _, w3) =>
            (({}, some (RError.uninstallWaitingForDeletion nfsService.meta.name)), w3)
          | (GetRes.err, w3) =>
            (({}, some (RError.uninstallWaitingForDeletion nfsService.meta.name)), w3)
      else
        match clientGet w1 with
        | (GetRes.notFound, w3) => (({}, none), w3)
        | (GetRes.ok _, w3) =>
          (({}, some (RError.uninstallWaitingForDeletion nfsService.meta.name)), w3)
        | (GetRes.err, w3) =>
          (({}, some (RError.uninstallWaitingForDeletion nfsService.meta.name)), w3)

/-- The merge block of `ocsNFSService.ensureCreated`'s update path: the
source overwrites exactly the live Service's OwnerReferences, Spec.Ports,
Spec.Selector and Spec.SessionAffinity from the desired object, leaving
every other field of the live object unchanged. -/
def mergeNFSService (nfsService existing : Service) : Service :=
  { existing with
    meta.ownerReferences := nfsService.meta.ownerReferences,
    spec.ports := nfsService.spec.ports,
    spec.selector := nfsService.spec.selector,
    spec.sessionAffinity := nfsService.spec.sessionAffinity }

/-- `ocsNFSService.ensureCreated`: policy check routes to
`ensureDeleted`; else build, fetch, and a Go `switch` with exactly two
cases — found (reject pending deletion, else overwrite owner references,
ports, selector and session affinity and update) and not-found (create) —
with no `default` case, so a fetch error other than not-found falls
through to the final success return. -/
def ocsNFSService.ensureCreated (r : StorageClusterReconciler) (inst : StorageCluster)
    (w : World Service) : (ReconcileResult × Option RError) × World Service :=
  if nfsNotEnabled inst then ocsNFSService.ensureDeleted r inst w
  else
    match r.newNFSService inst with
    | Except.error e => (({}, some e), w)
    | Except.ok nfsService =>
      match clientGet w with
      | (GetRes.ok existing, w1) =>
        if existing.meta.deletionTimestamp.isSome then
          (({}, some (RError.pendingDeletion existing.meta.name)), w1)
        else
          let existing2 := mergeNFSService nfsService existing
          match clientUpdate existing2 w1 with
          | (true, w2) => (({}, some RError.substrateErr), w2)
          | (false, w2) => (({}, none), w2)
      | (GetRes.notFound, w1) =>
        match clientCreate nfsService w1 with
        | (true, w2) => (({}, some RError.substrateErr), w2)
        | (false, w2) => (({}, none), w2)
      | (GetRes.err, w1) => (({}, none), w1)

/-- `ocsCephNetworkFilesystem.ensureDeleted`: same protocol as the Service
variant, over CephNFS, with the delete guard likewise reading the freshly
built object's deletion timestamp. -/
def ocsCephNetworkFilesystem.ensureDeleted (r : StorageClusterReconciler)
    (sc : StorageCluster) (w : World CephNFS) :
    (ReconcileResult × Option RError) × World CephNFS :=
  match r.newCephNetworkFilesystemInstance sc with
  | Except.error e => (({}, some e), w)
  | Except.ok cephNetworkFilesystem =>
    match clientGet w with
    | (GetRes.notFound, w1) => (({}, none), w1)
    | (GetRes.err, w1) =>
      (({}, some (RError.uninstallRetrieveFailed cephNetworkFilesystem.meta.name)), w1)
    | (GetRes.ok foundCephNetworkFilesystem, w1) =>
      if cephNetworkFilesystem.meta.deletionTimestamp.isNone then
        match clientDelete foundCephNetworkFilesystem w1 with
        | (true, w2) =>
          (({}, some (RError.uninstallDeleteFailed foundCephNetworkFilesystem.meta.name)), w2)
        | (false, w2) =>
          match clientGet w2 with
          | (GetRes.notFound, w3) => (({}, none), w3)
          | (GetRes.ok _, w3) =>
            (({}, some (RError.uninstallWaitingForDeletion cephNetworkFilesystem.meta.name)), w3)
          | (GetRes.err, w3) =>
            (({}, some (RError.uninstallWaitingForDeletion cephNetworkFilesystem.meta.name)), w3)
      else
        match clientGet w1 with
        | (GetRes.notFound, w3) => (({}, none), w3)
        | (GetRes.ok _, w3) =>
          (({}, some (RError.uninstallWaitingForDeletion cephNetworkFilesystem.meta.name)), w3)
        | (GetRes.err, w3) =>
          (({}, some (RError.uninstallWaitingForDeletion cephNetworkFilesystem.meta.name)), w3)

/-- `ocsCephNetworkFilesystem.ensureCreated`: policy check routes to
`ensureDeleted`; else build, fetch, and the two-case `switch` — found
(reject pending deletion, else overwrite owner references and the whole
spec and update) and not-found (create) — again with no `default` case. -/
def ocsCephNetworkFilesystem.ensureCreated (r : StorageClusterReconciler)
    (inst : StorageCluster) (w : World CephNFS) :
    (ReconcileResult × Option RError) × World CephNFS :=
  if nfsNotEnabled inst then ocsCephNetworkFilesystem.ensureDeleted r inst w
  else
    match r.newCephNetworkFilesystemInstance inst with
    | Except.error e => (({}, some e), w)
    | Except.ok cephNetworkFilesystem =>
      match clientGet w with
      | (GetRes.ok existing, w1) =>
        if existing.meta.deletionTimestamp.isSome then
          (({}, some (RError.pendingDeletion existing.meta.name)), w1)
        else
          let existing2 :=
            { existing with
              meta.ownerReferences := cephNetworkFilesystem.meta.ownerReferences,
              spec := cephNetworkFilesystem.spec }
          match clientUpdate existing2 w1 with
          | (true, w2) => (({}, some RError.substrateErr), w2)
          | (false, w2) => (({}, none), w2)
      | (GetRes.notFound, w1) =>
        match clientCreate cephNetworkFilesystem w1 with
        | (true, w2) => (({}, some RError.substrateErr), w2)
        | (false, w2) => (({}, none), w2)
      | (GetRes.err, w1) => (({}, none), w1)

/-- `ocsCephNFS.ensureDeleted`: the variant file's CephNFS deletion path,
structurally identical to `ocsCephNetworkFilesystem.ensureDeleted`. -/
def ocsCephNFS.ensureDeleted (r : StorageClusterReconciler) (sc : StorageCluster)
    (w : World CephNFS) : (ReconcileResult × Option RError) × World CephNFS :=
  match r.newCephNFSInstance sc with
  | Except.error e => (({}, some e), w)
  | Except.ok cephNFS =>
    match clientGet w with
    | (GetRes.notFound, w1) => (({}, none), w1)
    | (GetRes.err, w1) =>
      (({}, some (RError.uninstallRetrieveFailed cephNFS.meta.name)), w1)
    | (GetRes.ok foundCephNFS, w1) =>
      if cephNFS.meta.deletionTimestamp.isNone then
        match clientDelete foundCephNFS w1 with
        | (true, w2) =>
          (({}, some (RError.uninstallDeleteFailed foundCephNFS.meta.name)), w2)
        | (false, w2) =>
          match clientGet w2 with
          | (GetRes.notFound, w3) => (({}, none), w3)
          | (GetRes.ok _, w3) =>
            (({}, some (RError.uninstallWaitingForDeletion cephNFS.meta.name)), w3)
          | (GetRes.err, w3) =>
            (({}, some (RError.uninstallWaitingForDeletion cephNFS.meta.name)), w3)
      else
        match clientGet w1 with
        | (GetRes.notFound, w3) => (({}, none), w3)
        | (GetRes.ok _, w3) =>
          (({}, some (RError.uninstallWaitingForDeletion cephNFS.meta.name)), w3)
        | (GetRes.err, w3) =>
          (({}, some (RError.uninstallWaitingForDeletion cephNFS.meta.name)), w3)

/-- `ocsCephNFS.ensureCreated`: the variant file's CephNFS convergence
path — found (reject pending deletion, else overwrite owner references and
the whole spec and update), not-found (create), and the same missing
`default` case. -/
def ocsCephNFS.ensureCreated (r : StorageClusterReconciler) (inst : StorageCluster)
    (w : World CephNFS) : (ReconcileResult × Option RError) × World CephNFS :=
  if nfsNotEnabled inst then ocsCephNFS.ensureDeleted r inst w
  else
    match r.newCephNFSInstance inst with
    | Except.error e => (({}, some e), w)
    | Except.ok cephNFS =>
      match clientGet w with
      | (GetRes.ok existingCephNFS, w1) =>
        if existingCephNFS.meta.deletionTimestamp.isSome then
          (({}, some (RError.pendingDeletion existingCephNFS.meta.name)), w1)
        else
          let existing2 :=
            { existingCephNFS with
              meta.ownerReferences := cephNFS.meta.ownerReferences,
              spec := cephNFS.spec }
          match clientUpdate existing2 w1 with
          | (true, w2) => (({}, some RError.substrateErr), w2)
          | (false, w2) => (({}, none), w2)
      | (GetRes.notFound, w1) =>
        match clientCreate cephNFS w1 with
        | (true, w2) => (({}, some RError.substrateErr), w2)
        | (false, w2) => (({}, none), w2)
      | (GetRes.err, w1) => (({}, none), w1)

/-- `ocsCephNFSBlockPool.ensureDeleted`: the backing pool's deletion path,
with the same shape (and the same delete guard on the freshly built
object). -/
def ocsCephNFSBlockPool.ensureDeleted (r : StorageClusterReconciler)
    (sc : StorageCluster) (w : World CephBlockPool) :
    (ReconcileResult × Option RError) × World CephBlockPool :=
  match r.newCephNFSBlockPoolInstance sc with
  | Except.error e => (({}, some e), w)
  | Except.ok cephBlockPool =>
    match clientGet w with
    | (GetRes.notFound, w1) => (({}, none), w1)
    | (GetRes.err, w1) =>
      (({}, some (RError.uninstallRetrieveFailed cephBlockPool.meta.name)), w1)
    | (GetRes.ok foundCephBlockPool, w1) =>
      if cephBlockPool.meta.deletionTimestamp.isNone then
        match clientDelete foundCephBlockPool w1 with
        | (true, w2) =>
          (({}, some (RError.uninstallDeleteFailed foundCephBlockPool.meta.name)), w2)
        | (false, w2) =>
          match clientGet w2 with
          | (GetRes.notFound, w3) => (({}, none), w3)
          | (GetRes.ok _, w3) =>
            (({}, some (RError.uninstallWaitingForDeletion cephBlockPool.meta.name)), w3)
          | (GetRes.err, w3) =>
            (({}, some (RError.uninstallWaitingForDeletion cephBlockPool.meta.name)), w3)
      else
        match clientGet w1 with
        | (GetRes.notFound, w3) => (({}, none), w3)
        | (GetRes.ok _, w3) =>
          (({}, some (RError.uninstallWaitingForDeletion cephBlockPool.meta.name)), w3)
        | (GetRes.err, w3) =>
          (({}, some (RError.uninstallWaitingForDeletion cephBlockPool.meta.name)), w3)

/-- `ocsCephNFSBlockPool.ensureCreated`: the backing pool's convergence
path, same shape as the CephNFS ones. -/
def ocsCephNFSBlockPool.ensureCreated (r : StorageClusterReconciler)
    (inst : StorageCluster) (w : World CephBlockPool) :
    (ReconcileResult × Option RError) × World CephBlockPool :=
  if nfsNotEnabled inst then ocsCephNFSBlockPool.ensureDeleted r inst w
  else
    match r.newCephNFSBlockPoolInstance inst with
    | Except.error e => (({}, some e), w)
    | Except.ok cephBlockPool =>
      match clientGet w with
      | (GetRes.ok existingBlockPool, w1) =>
        if existingBlockPool.meta.deletionTimestamp.isSome then
          (({}, some (RError.pendingDeletion existingBlockPool.meta.name)), w1)
        else
          let existing2 :=
            { existingBlockPool with
              meta.ownerReferences := cephBlockPool.meta.ownerReferences,
              spec := cephBlockPool.spec }
          match clientUpdate existing2 w1 with
          | (true, w2) => (({}, some RError.substrateErr), w2)
          | (false, w2) => (({}, none), w2)
      | (GetRes.notFound, w1) =>
        match clientCreate cephBlockPool w1 with
        | (true, w2) => (({}, some RError.substrateErr), w2)
        | (false, w2) => (({}, none), w2)
      | (GetRes.err, w1) => (({}, none), w1)

/-- `ocsCephNFSService.ensureDeleted`: the variant Service deletion
path. -/
def ocsCephNFSService.ensureDeleted (r : StorageClusterReconciler)
    (sc : StorageCluster) (w : World Service) :
    (ReconcileResult × Option RError) × World Service :=
  match ocsCephNFSService.newNFSService r sc with
  | Except.error e => (({}, some e), w)
  | Except.ok nfsService =>
    match clientGet w with
    | (GetRes.notFound, w1) => (({}, none), w1)
    | (GetRes.err, w1) =>
      (({}, some (RError.uninstallRetrieveFailed nfsService.meta.name)), w1)
    | (GetRes.ok foundNFSService, w1) =>
      if nfsService.meta.deletionTimestamp.isNone then
        match clientDelete foundNFSService w1 with
        | (true, w2) =>
          (({}, some (RError.uninstallDeleteFailed foundNFSService.meta.name)), w2)
        | (false, w2) =>
          match clientGet w2 with
          | (GetRes.notFound, w3) => (({}, none), w3)
          | (GetRes.ok _, w3) =>
            (({}, some (RError.uninstallWaitingForDeletion nfsService.meta.name)), w3)
          | (GetRes.err, w3) =>
            (({}, some (RError.uninstallWaitingForDeletion nfsService.meta.name)), w3)
      else
        match clientGet w1 with
        | (GetRes.notFound, w3) => (({}, none), w3)
        | (GetRes.ok _, w3) =>
          (({}, some (RError.uninstallWaitingForDeletion nfsService.meta.name)), w3)
        | (GetRes.err, w3) =>
          (({}, some (RError.uninstallWaitingForDeletion nfsService.meta.name)), w3)

/-- `ocsCephNFSService.ensureCreated`: the variant Service convergence
path — this variant overwrites owner references and the whole Service
spec on update — with the same missing `default` case. -/
def ocsCephNFSService.ensureCreated (r : StorageClusterReconciler)
    (inst : StorageCluster) (w : World Service) :
    (ReconcileResult × Option RError) × World Service :=
  if nfsNotEnabled inst then ocsCephNFSService.ensureDeleted r inst w
  else
    match ocsCephNFSService.newNFSService r inst with
    | Except.error e => (({}, some e), w)
    | Except.ok nfsService =>
      match clientGet w with
      | (GetRes.ok existingNFSService, w1) =>
        if existingNFSService.meta.deletionTimestamp.isSome then
          (({}, some (RError.pendingDeletion existingNFSService.meta.name)), w1)
        else
          let existing2 :=
            { existingNFSService with
              meta.ownerReferences := nfsService.meta.ownerReferences,
              spec := nfsService.spec }
          match clientUpdate existing2 w1 with
          | (true, w2) => (({}, some RError.substrateErr), w2)
          | (false, w2) => (({}, none), w2)
      | (GetRes.notFound, w1) =>
        match clientCreate nfsService w1 with
        | (true, w2) => (({}, some RError.substrateErr), w2)
        | (false, w2) => (({}, none), w2)
      | (GetRes.err, w1) => (({}, none), w1)

/-- A reconciler whose scheme can establish the controller reference. -/
def rOk : StorageClusterReconciler := { schemeOk := true }

/-- A parent with the NFS feature enabled, named as in the unit tests. -/
def scSample : StorageCluster :=
  { meta := { name := "ocsinit", nspace := "openshift-storage" },
    spec := { nfs := some { enable := true } } }

/-- A parent with no NFS block (feature flag absent). -/
def scDisabled : StorageCluster :=
  { meta := { name := "ocsinit", nspace := "openshift-storage" },
    spec := { } }

/-- A parent sharing `scSample`'s identity (name) but with a different
spec and namespace, to exhibit that derived names depend only on parent
identity and kind. -/
def scAltSpec : StorageCluster :=
  { meta := { name := "ocsinit", nspace := "other-ns" },
    spec := { nfs := none, replica := 5, failureDomain := "zone" } }

/-- A live Service at the derived name, already marked for deletion. -/
def svcMarked : Service :=
  { meta := { name := "ocsinit-cephnfs-service", nspace := "openshift-storage",
              deletionTimestamp := some 5 },
    spec := { } }

/-- A live Service at the derived name, not marked for deletion, carrying
substrate-assigned fields the update path must not touch. -/
def svcLive : Service :=
  { meta := { name := "ocsinit-cephnfs-service", nspace := "openshift-storage",
              uid := "svc-uid", resourceVersion := 7,
              labels := [("managed-by", "substrate")] },
    spec := { clusterIP := "10.96.0.17", svcType := "ClusterIP" } }

/-- A live CephNFS at the derived name, already marked for deletion. -/
def cephNFSMarked : CephNFS :=
  { meta := { name := "ocsinit-cephnfs", nspace := "openshift-storage",
              deletionTimestamp := some 5 },
    spec := { server := { active := 0, placement := { kindTag := "", prefs := [] },
                          resources := { cpu := 0, memory := 0 },
                          priorityClassName := "" } } }

/-- A live CephNFS at the derived name of the CephNetworkFilesystem kind,
not marked for deletion. -/
def cephNetFSLive : CephNFS :=
  { meta := { name := "ocsinit-cephnetworkfilesystem", nspace := "openshift-storage",
              resourceVersion := 3 },
    spec := { server := { active := 2, placement := { kindTag := "old", prefs := [] },
                          resources := { cpu := 9, memory := 9 },
                          priorityClassName := "old" } } }

/-- A live CephNFS at the derived name of the CephNetworkFilesystem kind,
already marked for deletion. -/
def cephNetFSMarked : CephNFS :=
  { meta := { name := "ocsinit-cephnetworkfilesystem", nspace := "openshift-storage",
              deletionTimestamp := some 5 },
    spec := { server := { active := 0, placement := { kindTag := "", prefs := [] },
                          resources := { cpu := 0, memory := 0 },
                          priorityClassName := "" } } }

/-- The cluster IP the `newNFSService` builder assigns: headless under
host networking, else the zero value (filled in by the substrate). -/
def nfsServiceClusterIP (inst : StorageCluster) : String :=
  match inst.spec.network with
  | some n => if n.hostNetwork then "None" else ""
  | none => ""

/-- The desired Service `newNFSService` produces when the scheme allows
the controller reference, written out as a literal. -/
def nfsServiceDesired (inst : StorageCluster) : Service :=
  { meta := { name := generateNameForNFSService inst,
              nspace := inst.meta.nspace,
              ownerReferences := [{ kind := "StorageCluster", name := inst.meta.name,
                                    uid := inst.meta.uid, controller := true }] },
    spec := { ports := [{ name := "nfs", port := 2049, protocol := "TCP",
                          targetPort := 2049 }],
              selector := [("app", "rook-ceph-nfs"),
                           ("ceph_nfs", generateNameForCephNetworkFilesystem inst)],
              sessionAffinity := "ClientIP",
              clusterIP := nfsServiceClusterIP inst } }

/-- The desired CephNFS `newCephNetworkFilesystemInstance` produces when
the scheme allows the controller reference, written out as a literal. -/
def cephNetworkFilesystemDesired (inst : StorageCluster) : CephNFS :=
  { meta := { name := generateNameForCephNetworkFilesystem inst,
              nspace := inst.meta.nspace,
              ownerReferences := [{ kind := "StorageCluster", name := inst.meta.name,
                                    uid := inst.meta.uid, controller := true }] },
    spec := { server := { active := 1,
                          placement := getPlacement inst "nfs",
                          resources := GetDaemonResources "nfs" inst.spec.resources,
                          priorityClassName := openshiftUserCritical } } }

/-- The desired CephNFS `newCephNFSInstance` produces when the scheme
allows the controller reference, written out as a literal. -/
def cephNFSDesired (inst : StorageCluster) : CephNFS :=
  { meta := { name := generateNameForCephNFS inst,
              nspace := inst.meta.nspace,
              ownerReferences := [{ kind := "StorageCluster", name := inst.meta.name,
                                    uid := inst.meta.uid, controller := true }] },
    spec := { server := { active := 1,
                          placement := getPlacement inst "nfs",
                          resources := GetDaemonResources "nfs" inst.spec.resources,
                          priorityClassName := openshiftUserCritical } } }

theorem newNFSService_eq (r : StorageClusterReconciler) (inst : StorageCluster)
    (h : r.schemeOk = true) :
    r.newNFSService inst = Except.ok (nfsServiceDesired inst) := by
  unfold StorageClusterReconciler.newNFSService setControllerReference
    nfsServiceDesired nfsServiceClusterIP
  cases hn : inst.spec.network with
  | none => simp [h]
  | some n => cases hb : n.hostNetwork <;> simp [h, hb]

theorem newCephNetworkFilesystemInstance_eq (r : StorageClusterReconciler)
    (inst : StorageCluster) (h : r.schemeOk = true) :
    r.newCephNetworkFilesystemInstance inst =
      Except.ok (cephNetworkFilesystemDesired inst) := by
  simp [StorageClusterReconciler.newCephNetworkFilesystemInstance, setControllerReference,
        cephNetworkFilesystemDesired, h]

theorem newCephNFSInstance_eq (r : StorageClusterReconciler)
    (inst : StorageCluster) (h : r.schemeOk = true) :
    r.newCephNFSInstance inst = Except.ok (cephNFSDesired inst) := by
  simp [StorageClusterReconciler.newCephNFSInstance, setControllerReference,
        cephNFSDesired, h]

theorem service_overwrite_self (s : Service) :
    { s with meta.ownerReferences := s.meta.ownerReferences,
             spec.ports := s.spec.ports,
             spec.selector := s.spec.selector,
             spec.sessionAffinity := s.spec.sessionAffinity } = s := rfl

theorem cephNFS_overwrite_self (s : CephNFS) :
    { s with meta.ownerReferences := s.meta.ownerReferences, spec := s.spec } = s := rfl

theorem ocsNFSService_ensureDeleted_result (r : StorageClusterReconciler)
    (sc : StorageCluster) (w : World Service) :
    ((ocsNFSService.ensureDeleted r sc w).1).1 = {} := by
  unfold ocsNFSService.ensureDeleted
  repeat' split
  all_goals rfl

theorem ocsNFSService_ensureCreated_result (r : StorageClusterReconciler)
    (sc : StorageCluster) (w : World Service) :
    ((ocsNFSService.ensureCreated r sc w).1).1 = {} := by
  unfold ocsNFSService.ensureCreated
  split
  · exact ocsNFSService_ensureDeleted_result r sc w
  · repeat' (first | split | dsimp only)
    all_goals rfl

theorem ocsCephNetworkFilesystem_ensureDeleted_result (r : StorageClusterReconciler)
    (sc : StorageCluster) (w : World CephNFS) :
    ((ocsCephNetworkFilesystem.ensureDeleted r sc w).1).1 = {} := by
  unfold ocsCephNetworkFilesystem.ensureDeleted
  repeat' split
  all_goals rfl

theorem ocsCephNetworkFilesystem_ensureCreated_result (r : StorageClusterReconciler)
    (sc : StorageCluster) (w : World CephNFS) :
    ((ocsCephNetworkFilesystem.ensureCreated r sc w).1).1 = {} := by
  unfold ocsCephNetworkFilesystem.ensureCreated
  split
  · exact ocsCephNetworkFilesystem_ensureDeleted_result r sc w
  · repeat' (first | split | dsimp only)
    all_goals rfl

theorem ocsCephNFS_ensureDeleted_result (r : StorageClusterReconciler)
    (sc : StorageCluster) (w : World CephNFS) :
    ((ocsCephNFS.ensureDeleted r sc w).1).1 = {} := by
  unfold ocsCephNFS.ensureDeleted
  repeat' split
  all_goals rfl

theorem ocsCephNFS_ensureCreated_result (r : StorageClusterReconciler)
    (sc : StorageCluster) (w : World CephNFS) :
    ((ocsCephNFS.ensureCreated r sc w).1).1 = {} := by
  unfold ocsCephNFS.ensureCreated
  split
  · exact ocsCephNFS_ensureDeleted_result r sc w
  · repeat' (first | split | dsimp only)
    all_goals rfl

theorem ocsCephNFSBlockPool_ensureDeleted_result (r : StorageClusterReconciler)
    (sc : StorageCluster) (w : World CephBlockPool) :
    ((ocsCephNFSBlockPool.ensureDeleted r sc w).1).1 = {} := by
  unfold ocsCephNFSBlockPool.ensureDeleted
  repeat' split
  all_goals rfl

theorem ocsCephNFSBlockPool_ensureCreated_result (r : StorageClusterReconciler)
    (sc : StorageCluster) (w : World CephBlockPool) :
    ((ocsCephNFSBlockPool.ensureCreated r sc w).1).1 = {} := by
  unfold ocsCephNFSBlockPool.ensureCreated
  split
  · exact ocsCephNFSBlockPool_ensureDeleted_result r sc w
  · repeat' (first | split | dsimp only)
    all_goals rfl

theorem ocsCephNFSService_ensureDeleted_result (r : StorageClusterReconciler)
    (sc : StorageCluster) (w : World Service) :
    ((ocsCephNFSService.ensureDeleted r sc w).1).1 = {} := by
  unfold ocsCephNFSService.ensureDeleted
  repeat' split
  all_goals rfl

theorem ocsCephNFSService_ensureCreated_result (r : StorageClusterReconciler)
    (sc : StorageCluster) (w : World Service) :
    ((ocsCephNFSService.ensureCreated r sc w).1).1 = {} := by
  unfold ocsCephNFSService.ensureCreated
  split
  · exact ocsCephNFSService_ensureDeleted_result r sc w
  · repeat' (first | split | dsimp only)
    all_goals rfl

/-- C1: the claim says a fetch error other than not-found in
`ensureCreated` is returned to the caller. The code's `switch` has no
`default` case, so that error falls through to the final success return:
with the feature enabled and the fetch failing with a non-not-found
error, `ensureCreated` returns the zero result and a nil error — the
substrate I/O error is silently dropped, for both the NFS Service and the
CephNetworkFilesystem reconcilers. -/
theorem claim_C1_fetch_error_dropped :
    (ocsNFSService.ensureCreated rOk scSample
        { store := none, faults := [true] }).1 = ({}, none) ∧
    (ocsCephNetworkFilesystem.ensureCreated rOk scSample
        { store := none, faults := [true] }).1 = ({}, none) :=
  ⟨rfl, rfl⟩

/-- C3: for a parent whose NFS feature flag is absent or false,
`ensureCreated` returns exactly the result of `ensureDeleted` on the same
parent — identical requeue hint, error, and substrate interaction — for
the NFS Service and CephNetworkFilesystem reconcilers. -/
theorem claim_C3_disable_drives_delete (r : StorageClusterReconciler)
    (inst : StorageCluster) (h : nfsNotEnabled inst = true) :
    (∀ w : World Service,
       ocsNFSService.ensureCreated r inst w = ocsNFSService.ensureDeleted r inst w) ∧
    (∀ w : World CephNFS,
       ocsCephNetworkFilesystem.ensureCreated r inst w =
         ocsCephNetworkFilesystem.ensureDeleted r inst w) := by
  constructor <;> intro w
  · unfold ocsNFSService.ensureCreated
    simp [h]
  · unfold ocsCephNetworkFilesystem.ensureCreated
    simp [h]

theorem claim_C3_witness :
    nfsNotEnabled scDisabled = true ∧
    ocsNFSService.ensureCreated rOk scDisabled { store := none } =
      ocsNFSService.ensureDeleted rOk scDisabled { store := none } :=
  ⟨by decide,
   (claim_C3_disable_drives_delete rOk scDisabled (by decide)).1 { store := none }⟩

/-- C5: the claim says `ensureDeleted` issues a delete only when the
fetched live object is not yet marked for deletion. The code guards the
delete with the deletion timestamp of the freshly built desired object —
which is always nil — so with a live object already marked for deletion
the delete request is issued anyway, for both the NFS Service and the
CephNetworkFilesystem reconcilers (the trace of the run contains the
delete call). -/
theorem claim_C5_delete_issued_despite_marked_live :
    (ocsNFSService.ensureDeleted rOk scSample
        { store := some svcMarked, deleteAsync := true }).2.trace =
      [Call.get, Call.delete svcMarked, Call.get] ∧
    (ocsCephNetworkFilesystem.ensureDeleted rOk scSample
        { store := some cephNetFSMarked, deleteAsync := true }).2.trace =
      [Call.get, Call.delete cephNetFSMarked, Call.get] :=
  ⟨rfl, rfl⟩

/-- C10: every return path of `ensureCreated` and `ensureDeleted`, for
all five managed kinds, returns the zero-valued requeue hint (requeue
flag false, zero delay); retry is signaled only through the error
value. -/
theorem claim_C10_zero_requeue_hint :
    (∀ (r : StorageClusterReconciler) (sc : StorageCluster) (w : World Service),
       ((ocsNFSService.ensureCreated r sc w).1).1 = {} ∧
       ((ocsNFSService.ensureDeleted r sc w).1).1 = {} ∧
       ((ocsCephNFSService.ensureCreated r sc w).1).1 = {} ∧
       ((ocsCephNFSService.ensureDeleted r sc w).1).1 = {}) ∧
    (∀ (r : StorageClusterReconciler) (sc : StorageCluster) (w : World CephNFS),
       ((ocsCephNetworkFilesystem.ensureCreated r sc w).1).1 = {} ∧
       ((ocsCephNetworkFilesystem.ensureDeleted r sc w).1).1 = {} ∧
       ((ocsCephNFS.ensureCreated r sc w).1).1 = {} ∧
       ((ocsCephNFS.ensureDeleted r sc w).1).1 = {}) ∧
    (∀ (r : StorageClusterReconciler) (sc : StorageCluster) (w : World CephBlockPool),
       ((ocsCephNFSBlockPool.ensureCreated r sc w).1).1 = {} ∧
       ((ocsCephNFSBlockPool.ensureDeleted r sc w).1).1 = {}) :=
  ⟨fun r sc w =>
     ⟨ocsNFSService_ensureCreated_result r sc w,
      ocsNFSService_ensureDeleted_result r sc w,
      ocsCephNFSService_ensureCreated_result r sc w,
      ocsCephNFSService_ensureDeleted_result r sc w⟩,
   fun r sc w =>
     ⟨ocsCephNetworkFilesystem_ensureCreated_result r sc w,
      ocsCephNetworkFilesystem_ensureDeleted_result r sc w,
      ocsCephNFS_ensureCreated_result r sc w,
      ocsCephNFS_ensureDeleted_result r sc w⟩,
   fun r sc w =>
     ⟨ocsCephNFSBlockPool_ensureCreated_result r sc w,
      ocsCephNFSBlockPool_ensureDeleted_result r sc w⟩⟩

/-- C2: with the feature enabled, if the live managed resource is found
and already marked for deletion, `ensureCreated` returns the distinct
pending-deletion error and issues no create and no update call: the full
outcome equals the zero result, the pending-deletion error, and a world
whose store is untouched and whose trace grew by the single fetch — for
the NFS Service and CephNFS reconcilers. -/
theorem claim_C2_pending_deletion_conflict (r : StorageClusterReconciler)
    (inst : StorageCluster) (hscheme : r.schemeOk = true)
    (hen : nfsNotEnabled inst = false) :
    (∀ (ex : Service) (w : World Service), w.faults = [] → w.store = some ex →
       ex.meta.deletionTimestamp.isSome = true →
       ocsNFSService.ensureCreated r inst w =
         (({}, some (RError.pendingDeletion ex.meta.name)),
          { w with trace := w.trace ++ [Call.get] })) ∧
    (∀ (ex : CephNFS) (w : World CephNFS), w.faults = [] → w.store = some ex →
       ex.meta.deletionTimestamp.isSome = true →
       ocsCephNFS.ensureCreated r inst w =
         (({}, some (RError.pendingDeletion ex.meta.name)),
          { w with trace := w.trace ++ [Call.get] })) := by
  constructor
  · intro ex w hf hst hmark
    obtain ⟨st, fl, da, tr⟩ := w
    dsimp at hf hst
    subst hf hst
    unfold ocsNFSService.ensureCreated
    rw [newNFSService_eq r inst hscheme]
    simp [hen, clientGet, popFault, hmark]
  · intro ex w hf hst hmark
    obtain ⟨st, fl, da, tr⟩ := w
    dsimp at hf hst
    subst hf hst
    unfold ocsCephNFS.ensureCreated
    rw [newCephNFSInstance_eq r inst hscheme]
    simp [hen, clientGet, popFault, hmark]

theorem claim_C2_witness :
    svcMarked.meta.deletionTimestamp.isSome = true ∧
    ocsNFSService.ensureCreated rOk scSample { store := some svcMarked } =
      (({}, some (RError.pendingDeletion svcMarked.meta.name)),
       { store := some svcMarked, trace := [Call.get] }) :=
  ⟨by decide,
   (claim_C2_pending_deletion_conflict rOk scSample rfl rfl).1 svcMarked
     { store := some svcMarked } rfl rfl (by decide)⟩

/-- C6: when no live managed resource exists, `ensureDeleted` returns
success with no error and issues zero mutating substrate calls: the full
outcome equals the zero result, no error, and a world whose store is
still empty and whose trace grew by the single fetch — for the NFS
Service and CephNetworkFilesystem reconcilers. -/
theorem claim_C6_not_found_is_success (r : StorageClusterReconciler)
    (sc : StorageCluster) (hscheme : r.schemeOk = true) :
    (∀ w : World Service, w.faults = [] → w.store = none →
       ocsNFSService.ensureDeleted r sc w =
         (({}, none), { w with trace := w.trace ++ [Call.get] })) ∧
    (∀ w : World CephNFS, w.faults = [] → w.store = none →
       ocsCephNetworkFilesystem.ensureDeleted r sc w =
         (({}, none), { w with trace := w.trace ++ [Call.get] })) := by
  constructor
  · intro w hf hst
    obtain ⟨st, fl, da, tr⟩ := w
    dsimp at hf hst
    subst hf hst
    unfold ocsNFSService.ensureDeleted
    rw [newNFSService_eq r sc hscheme]
    simp [clientGet, popFault]
  · intro w hf hst
    obtain ⟨st, fl, da, tr⟩ := w
    dsimp at hf hst
    subst hf hst
    unfold ocsCephNetworkFilesystem.ensureDeleted
    rw [newCephNetworkFilesystemInstance_eq r sc hscheme]
    simp [clientGet, popFault]

theorem claim_C6_witness :
    ocsNFSService.ensureDeleted rOk scSample ({ store := none } : World Service) =
      (({}, none), { store := none, trace := [Call.get] }) :=
  (claim_C6_not_found_is_success rOk scSample rfl).1 { store := none } rfl rfl

/-- C4: in `ensureDeleted` with a live object present and no substrate
fault, the run fetches, issues the delete, and re-fetches exactly once
(the trace is fetch, delete, fetch); if the re-fetch reports not-found
(synchronous delete) the outcome is success with no error, and if the
object is still present (asynchronous delete) the outcome is the
retryable waiting-to-be-deleted error — for the NFS Service and
CephNetworkFilesystem reconcilers. -/
theorem claim_C4_refetch_once (r : StorageClusterReconciler) (sc : StorageCluster)
    (hscheme : r.schemeOk = true) :
    (∀ (found : Service) (w : World Service), w.faults = [] → w.store = some found →
       ((ocsNFSService.ensureDeleted r sc w).2.trace =
          w.trace ++ [Call.get, Call.delete found, Call.get]) ∧
       (w.deleteAsync = false →
          (ocsNFSService.ensureDeleted r sc w).1 = ({}, none)) ∧
       (w.deleteAsync = true →
          (ocsNFSService.ensureDeleted r sc w).1 =
            ({}, some (RError.uninstallWaitingForDeletion (generateNameForNFSService sc))))) ∧
    (∀ (found : CephNFS) (w : World CephNFS), w.faults = [] → w.store = some found →
       ((ocsCephNetworkFilesystem.ensureDeleted r sc w).2.trace =
          w.trace ++ [Call.get, Call.delete found, Call.get]) ∧
       (w.deleteAsync = false →
          (ocsCephNetworkFilesystem.ensureDeleted r sc w).1 = ({}, none)) ∧
       (w.deleteAsync = true →
          (ocsCephNetworkFilesystem.ensureDeleted r sc w).1 =
            ({}, some (RError.uninstallWaitingForDeletion
              (generateNameForCephNetworkFilesystem sc))))) := by
  constructor
  · intro found w hf hst
    obtain ⟨st, fl, da, tr⟩ := w
    dsimp at hf hst
    subst hf hst
    unfold ocsNFSService.ensureDeleted
    rw [newNFSService_eq r sc hscheme]
    cases da <;>
      simp [clientGet, clientDelete, popFault, KubeObj.markDeleted, nfsServiceDesired]
  · intro found w hf hst
    obtain ⟨st, fl, da, tr⟩ := w
    dsimp at hf hst
    subst hf hst
    unfold ocsCephNetworkFilesystem.ensureDeleted
    rw [newCephNetworkFilesystemInstance_eq r sc hscheme]
    cases da <;>
      simp [clientGet, clientDelete, popFault, KubeObj.markDeleted,
            cephNetworkFilesystemDesired]

theorem claim_C4_witness :
    (ocsNFSService.ensureDeleted rOk scSample
        { store := some svcLive, deleteAsync := true }).2.trace =
      [Call.get, Call.delete svcLive, Call.get] ∧
    (ocsNFSService.ensureDeleted rOk scSample
        { store := some svcLive, deleteAsync := true }).1 =
      ({}, some (RError.uninstallWaitingForDeletion (generateNameForNFSService scSample))) :=
  ⟨((claim_C4_refetch_once rOk scSample rfl).1 svcLive
      { store := some svcLive, deleteAsync := true } rfl rfl).1,
   ((claim_C4_refetch_once rOk scSample rfl).1 svcLive
      { store := some svcLive, deleteAsync := true } rfl rfl).2.2 rfl⟩

/-- C9: on the update path of the NFS Service reconciler (live Service
found, not marked for deletion, no substrate fault), the object submitted
to the update — and stored by it — is exactly the live Service with only
its OwnerReferences, Spec.Ports, Spec.Selector and Spec.SessionAffinity
overwritten from the desired object; every other field, including the
substrate-assigned Spec.ClusterIP, is left unchanged. -/
theorem claim_C9_update_frame (r : StorageClusterReconciler) (inst : StorageCluster)
    (ex d : Service) (w : World Service)
    (hscheme : r.schemeOk = true) (hen : nfsNotEnabled inst = false)
    (hf : w.faults = []) (hst : w.store = some ex)
    (hmark : ex.meta.deletionTimestamp.isSome = false)
    (hd : r.newNFSService inst = Except.ok d) :
    ocsNFSService.ensureCreated r inst w =
      (({}, none),
       { w with store := some (mergeNFSService d ex),
                trace := w.trace ++ [Call.get, Call.update (mergeNFSService d ex)] }) ∧
    (mergeNFSService d ex).meta.ownerReferences = d.meta.ownerReferences ∧
    (mergeNFSService d ex).spec.ports = d.spec.ports ∧
    (mergeNFSService d ex).spec.selector = d.spec.selector ∧
    (mergeNFSService d ex).spec.sessionAffinity = d.spec.sessionAffinity ∧
    (mergeNFSService d ex).meta.name = ex.meta.name ∧
    (mergeNFSService d ex).meta.nspace = ex.meta.nspace ∧
    (mergeNFSService d ex).meta.uid = ex.meta.uid ∧
    (mergeNFSService d ex).meta.deletionTimestamp = ex.meta.deletionTimestamp ∧
    (mergeNFSService d ex).meta.resourceVersion = ex.meta.resourceVersion ∧
    (mergeNFSService d ex).meta.labels = ex.meta.labels ∧
    (mergeNFSService d ex).spec.clusterIP = ex.spec.clusterIP ∧
    (mergeNFSService d ex).spec.svcType = ex.spec.svcType := by
  have hde : d = nfsServiceDesired inst := by
    have h2 := newNFSService_eq r inst hscheme
    rw [hd] at h2
    exact Except.ok.inj h2
  subst hde
  obtain ⟨st, fl, da, tr⟩ := w
  dsimp at hf hst
  subst hf hst
  refine ⟨?_, rfl, rfl, rfl, rfl, rfl, rfl, rfl, rfl, rfl, rfl, rfl, rfl⟩
  unfold ocsNFSService.ensureCreated
  rw [newNFSService_eq r inst hscheme]
  simp [hen, clientGet, clientUpdate, popFault, hmark]

theorem claim_C9_witness :
    ocsNFSService.ensureCreated rOk scSample { store := some svcLive } =
      (({}, none),
       { store := some (mergeNFSService (nfsServiceDesired scSample) svcLive),
         trace := [Call.get,
                   Call.update (mergeNFSService (nfsServiceDesired scSample) svcLive)] }) ∧
    (mergeNFSService (nfsServiceDesired scSample) svcLive).spec.clusterIP =
      svcLive.spec.clusterIP :=
  ⟨(claim_C9_update_frame rOk scSample svcLive (nfsServiceDesired scSample)
      { store := some svcLive } rfl rfl rfl rfl (by decide) rfl).1,
   (claim_C9_update_frame rOk scSample svcLive (nfsServiceDesired scSample)
      { store := some svcLive } rfl rfl rfl rfl (by decide) rfl).2.2.2.2.2.2.2.2.2.2.2.1⟩

/-- C7: with the feature enabled and a substrate in which no error occurs
(empty fault schedule, first call returns no error), invoking
`ensureCreated` twice with an unchanged parent leaves the live object
state after the second call equal to the state after the first call: the
store holds the same object `v` after both calls, the second call
succeeds, and its only substrate interaction beyond the fetch is the
no-op update that resubmits `v` itself — for the NFS Service and CephNFS
reconcilers. -/
theorem claim_C7_ensureCreated_idempotent (r : StorageClusterReconciler)
    (inst : StorageCluster) (hscheme : r.schemeOk = true)
    (hen : nfsNotEnabled inst = false) :
    (∀ w : World Service, w.faults = [] →
       ((ocsNFSService.ensureCreated r inst w).1).2 = none →
       ∃ v : Service,
         (ocsNFSService.ensureCreated r inst w).2.store = some v ∧
         ((ocsNFSService.ensureCreated r inst
             ((ocsNFSService.ensureCreated r inst w).2)).1) = ({}, none) ∧
         (ocsNFSService.ensureCreated r inst
             ((ocsNFSService.ensureCreated r inst w).2)).2.store = some v ∧
         (ocsNFSService.ensureCreated r inst
             ((ocsNFSService.ensureCreated r inst w).2)).2.trace =
           (ocsNFSService.ensureCreated r inst w).2.trace ++
             [Call.get, Call.update v]) ∧
    (∀ w : World CephNFS, w.faults = [] →
       ((ocsCephNFS.ensureCreated r inst w).1).2 = none →
       ∃ v : CephNFS,
         (ocsCephNFS.ensureCreated r inst w).2.store = some v ∧
         ((ocsCephNFS.ensureCreated r inst
             ((ocsCephNFS.ensureCreated r inst w).2)).1) = ({}, none) ∧
         (ocsCephNFS.ensureCreated r inst
             ((ocsCephNFS.ensureCreated r inst w).2)).2.store = some v ∧
         (ocsCephNFS.ensureCreated r inst
             ((ocsCephNFS.ensureCreated r inst w).2)).2.trace =
           (ocsCephNFS.ensureCreated r inst w).2.trace ++
             [Call.get, Call.update v]) := by
  constructor
  · intro w hf herr
    obtain ⟨st, fl, da, tr⟩ := w
    dsimp at hf
    subst hf
    cases st with
    | none =>
      refine ⟨nfsServiceDesired inst, ?_, ?_, ?_, ?_⟩ <;>
        simp [ocsNFSService.ensureCreated, newNFSService_eq r inst hscheme, hen,
              clientGet, clientCreate, clientUpdate, popFault, mergeNFSService,
              nfsServiceDesired]
    | some ex =>
      by_cases hm : ex.meta.deletionTimestamp.isSome = true
      · exfalso
        simp [ocsNFSService.ensureCreated, newNFSService_eq r inst hscheme, hen,
              clientGet, popFault, hm] at herr
      · simp only [Bool.not_eq_true] at hm
        refine ⟨mergeNFSService (nfsServiceDesired inst) ex, ?_, ?_, ?_, ?_⟩ <;>
          simp [ocsNFSService.ensureCreated, newNFSService_eq r inst hscheme, hen,
                clientGet, clientUpdate, popFault, mergeNFSService, hm]
  · intro w hf herr
    obtain ⟨st, fl, da, tr⟩ := w
    dsimp at hf
    subst hf
    cases st with
    | none =>
      refine ⟨cephNFSDesired inst, ?_, ?_, ?_, ?_⟩ <;>
        simp [ocsCephNFS.ensureCreated, newCephNFSInstance_eq r inst hscheme, hen,
              clientGet, clientCreate, clientUpdate, popFault, cephNFSDesired]
    | some ex =>
      by_cases hm : ex.meta.deletionTimestamp.isSome = true
      · exfalso
        simp [ocsCephNFS.ensureCreated, newCephNFSInstance_eq r inst hscheme, hen,
              clientGet, popFault, hm] at herr
      · simp only [Bool.not_eq_true] at hm
        refine ⟨{ ex with
                  meta.ownerReferences := (cephNFSDesired inst).meta.ownerReferences,
                  spec := (cephNFSDesired inst).spec }, ?_, ?_, ?_, ?_⟩ <;>
          simp [ocsCephNFS.ensureCreated, newCephNFSInstance_eq r inst hscheme, hen,
                clientGet, clientUpdate, popFault, hm]

theorem claim_C7_witness :
    ((ocsNFSService.ensureCreated rOk scSample { store := none }).1).2 = none ∧
    ∃ v : Service,
      (ocsNFSService.ensureCreated rOk scSample { store := none }).2.store = some v ∧
      ((ocsNFSService.ensureCreated rOk scSample
          ((ocsNFSService.ensureCreated rOk scSample { store := none }).2)).1) =
        ({}, none) ∧
      (ocsNFSService.ensureCreated rOk scSample
          ((ocsNFSService.ensureCreated rOk scSample { store := none }).2)).2.store =
        some v ∧
      (ocsNFSService.ensureCreated rOk scSample
          ((ocsNFSService.ensureCreated rOk scSample { store := none }).2)).2.trace =
        (ocsNFSService.ensureCreated rOk scSample { store := none }).2.trace ++
          [Call.get, Call.update v] :=
  ⟨by decide,
   (claim_C7_ensureCreated_idempotent rOk scSample rfl rfl).1 { store := none }
     rfl (by decide)⟩

/-- C8: the desired-state builders are deterministic — two invocations on
the same parent yield identical desired objects — every successfully
built object carries exactly the derived name of its kind, and the
derived name is a pure function of the parent identity and the kind: two
parents with the same name get the same derived name for each kind, even
with entirely different specs. -/
theorem claim_C8_deterministic_builders (r : StorageClusterReconciler)
    (p q : StorageCluster) (hid : p.meta.name = q.meta.name) :
    (r.newCephNFSInstance p = r.newCephNFSInstance p ∧
     r.newCephNetworkFilesystemInstance p = r.newCephNetworkFilesystemInstance p ∧
     r.newNFSService p = r.newNFSService p) ∧
    (∀ o : CephNFS, r.newCephNFSInstance p = Except.ok o →
       o.meta.name = generateNameForCephNFS p) ∧
    (∀ o : CephNFS, r.newCephNetworkFilesystemInstance p = Except.ok o →
       o.meta.name = generateNameForCephNetworkFilesystem p) ∧
    (∀ o : Service, r.newNFSService p = Except.ok o →
       o.meta.name = generateNameForNFSService p) ∧
    (generateNameForCephNFS p = generateNameForCephNFS q ∧
     generateNameForCephNetworkFilesystem p = generateNameForCephNetworkFilesystem q ∧
     generateNameForNFSService p = generateNameForNFSService q) := by
  refine ⟨⟨rfl, rfl, rfl⟩, ?_, ?_, ?_, ?_, ?_, ?_⟩
  · intro o ho
    cases hs : r.schemeOk with
    | false =>
      simp [StorageClusterReconciler.newCephNFSInstance, setControllerReference, hs] at ho
    | true =>
      rw [newCephNFSInstance_eq r p hs] at ho
      cases Except.ok.inj ho
      rfl
  · intro o ho
    cases hs : r.schemeOk with
    | false =>
      simp [StorageClusterReconciler.newCephNetworkFilesystemInstance,
            setControllerReference, hs] at ho
    | true =>
      rw [newCephNetworkFilesystemInstance_eq r p hs] at ho
      cases Except.ok.inj ho
      rfl
  · intro o ho
    cases hs : r.schemeOk with
    | false =>
      have herr : r.newNFSService p = Except.error RError.buildErr := by
        unfold StorageClusterReconciler.newNFSService setControllerReference
        cases p.spec.network with
        | none => simp [hs]
        | some n => cases n.hostNetwork <;> simp [hs]
      rw [herr] at ho
      exact absurd ho (by simp)
    | true =>
      rw [newNFSService_eq r p hs] at ho
      cases Except.ok.inj ho
      rfl
  · simp [generateNameForCephNFS, hid]
  · simp [generateNameForCephNetworkFilesystem, hid]
  · simp [generateNameForNFSService, hid]

theorem claim_C8_witness :
    scSample.meta.name = scAltSpec.meta.name ∧
    generateNameForCephNFS scSample = generateNameForCephNFS scAltSpec ∧
    generateNameForNFSService scSample = generateNameForNFSService scAltSpec :=
  ⟨rfl,
   ((claim_C8_deterministic_builders rOk scSample scAltSpec rfl).2.2.2.2).1,
   ((claim_C8_deterministic_builders rOk scSample scAltSpec rfl).2.2.2.2).2.2⟩
